import Mathlib

/-!
Verification of the Trello reconciliation worker (`src/worker.py`,
function `check_trello_tasks`) of the meeting_ai repository.

The worker is embedded shallowly:

* The document store (`mongo_models.py`) becomes the structure `DB`,
  holding the `trello_credentials`, `users` and `trello_cards`
  collections as lists in stored order.
* The external Trello system becomes the structure `Remote`: the
  outcome of `TrelloClient(...)` construction for a token, of
  `client.get_card(card_id)`, and of `card.get_list().name`
  (the list-name resolution is a second remote call made through the
  same client).  A Python exception is modelled as `Except.error e`
  carrying the message string that the `except` handler would format.
* Every `print` of the worker becomes a `Signal`; `renderSignal`
  reproduces the exact text of each print line.
* Every outbound Trello call becomes a `RemoteCall`; the source makes
  only the two read calls `get_card` and `get_list`, so those are the
  only constructors.

A faithfulness note on control flow: `worker.py` line 30 opens a
`try:` block that has no `except`/`finally` clause anywhere in the
file, which is a Python `SyntaxError` — the module cannot be imported
and the function cannot run at all.  The embedding models the body of
that block with no surrounding handler, which is how the code would
behave if the orphaned `try:` were simply absent: an exception raised
outside the inner per-item `try`/`except` (only `TrelloClient`
construction can raise there) propagates out of the pass, recorded in
the `exc` field of `PassResult`.  Signals printed before the
propagation point are kept, signals after it are never produced.

The worker performs no store write (`save`/`update` is never called),
so the database is threaded through the pass unchanged at every
return point; `PassResult.db` is the stored state after the pass.
-/

/-- A `TrelloCredentials` document (`mongo_models.py`): one user's
stored Trello token. -/
structure TrelloCredentialsRec where
  user_id : String
  token : String
  deriving Repr, DecidableEq

/-- A `User` document, reduced to the field the worker reads: its id
(`creds.user_id` is compared against it by `User.objects(id=...)`). -/
structure UserRec where
  id : String
  deriving Repr, DecidableEq

/-- A `TrelloCard` document: one tracked work item.  `list_id` is the
recorded container of the card (last-known location). -/
structure TrelloCardRec where
  card_id : String
  user_id : String
  board_id : String
  list_id : String
  task_description : String
  deriving Repr, DecidableEq

/-- The fields of a card as returned by the remote
`client.get_card(card_id)` call: its current list and display name. -/
structure RemoteCard where
  list_id : String
  name : String
  deriving Repr, DecidableEq

/-- The stored state the worker reads: the three Mongo collections,
in stored order. -/
structure DB where
  trello_credentials : List TrelloCredentialsRec
  users : List UserRec
  trello_cards : List TrelloCardRec
  deriving Repr, DecidableEq

/-- The external Trello system, from the worker's point of view.
`clientCtor` is the outcome of `TrelloClient(...)` for a stored token;
`getCard` the outcome of `client.get_card(card_id)`; `getListName`
the outcome of `card.get_list().name` for a current list id.
`Except.error e` models a raised exception with message `e`. -/
structure Remote where
  clientCtor : String → Except String Unit
  getCard : String → String → Except String RemoteCard
  getListName : String → String → Except String String

/-- One `print` line of the worker, by kind, with the data the
f-string interpolates. -/
inductive Signal where
  | header (timestamp : String)
  | nothingToCheck
  | noTrackedCards
  | statusMoved (taskName : String) (newListName : String)
  | statusOk (taskName : String)
  | fetchError (cardId : String) (err : String)
  deriving Repr, DecidableEq

/-- The exact text each worker `print` produces (`worker.py`
lines 28, 35, 52, 61-62, 64, 67-68). -/
def renderSignal : Signal → String
  | .header t => "--- Running accountability check at " ++ t ++ " ---"
  | .nothingToCheck => "No users with Trello integrations to check."
  | .noTrackedCards => "  -> No tracked cards found for this user."
  | .statusMoved n l =>
      "  -> STATUS UPDATE: Task '" ++ n ++ "' has been moved to a new list '" ++ l ++ "'."
  | .statusOk n =>
      "  -> STATUS OK: Task '" ++ n ++ "' is still in its original list."
  | .fetchError cid e =>
      "  -> ERROR: Could not fetch card ID " ++ cid ++ ". It may have been deleted. Error: " ++ e

/-- One outbound Trello API call.  The source makes exactly two kinds
of calls, both reads: `client.get_card(card_id)` and the
`card.get_list()` hidden inside the moved-status f-string. -/
inductive RemoteCall where
  | getCard (token : String) (cardId : String)
  | getList (token : String) (listId : String)
  deriving Repr, DecidableEq

/-- Whether a call is a `get_card` ("get item by id") call. -/
def RemoteCall.isGetCard : RemoteCall → Bool
  | .getCard _ _ => true
  | .getList _ _ => false

/-- Whether a call is a read against the external system.  Both call
kinds the source performs are reads; there is no write call in
`worker.py`, hence no write constructor in `RemoteCall`. -/
def RemoteCall.isRead : RemoteCall → Bool
  | .getCard _ _ => true
  | .getList _ _ => true

/-- The body of the per-card `try`/`except` (`worker.py` lines 58-68):
fetch the card; if its current list differs from the recorded one,
resolve the new list's name (a second remote call, still inside the
same handler) and print the moved line, else print the ok line; any
exception is caught and printed as the error line naming
`card_record.card_id`.  Returns the printed signals and the remote
calls attempted, in order. -/
def checkCard (remote : Remote) (token : String) (rec : TrelloCardRec) :
    List Signal × List RemoteCall :=
  match remote.getCard token rec.card_id with
  | .error e => ([.fetchError rec.card_id e], [.getCard token rec.card_id])
  | .ok card =>
    if card.list_id != rec.list_id then
      match remote.getListName token card.list_id with
      | .ok listName =>
          ([.statusMoved card.name listName],
           [.getCard token rec.card_id, .getList token card.list_id])
      | .error e =>
          ([.fetchError rec.card_id e],
           [.getCard token rec.card_id, .getList token card.list_id])
    else
      ([.statusOk card.name], [.getCard token rec.card_id])

/-- Processing of one credential record (`worker.py` lines 39-68):
resolve the owning user (`User.objects(id=...).first()`; skip silently
when absent), construct the Trello client (no handler here, so a
construction failure propagates as `Except.error`), load the user's
tracked cards in stored order, and run the per-card body over each.
The database is returned unchanged: the worker never writes to it. -/
def checkCredential (db : DB) (remote : Remote) (creds : TrelloCredentialsRec) :
    Except String (DB × List Signal × List RemoteCall) :=
  match db.users.find? (fun u => u.id == creds.user_id) with
  | none => .ok (db, [], [])
  | some _ =>
    match remote.clientCtor creds.token with
    | .error e => .error e
    | .ok _ =>
      let tracked := db.trello_cards.filter (fun c => c.user_id == creds.user_id)
      if tracked.isEmpty then
        .ok (db, [.noTrackedCards], [])
      else
        .ok (db,
             (tracked.map (fun r => (checkCard remote creds.token r).1)).flatten,
             (tracked.map (fun r => (checkCard remote creds.token r).2)).flatten)

/-- The credential loop (`worker.py` line 38): credentials are
processed in stored order; an exception escaping one credential's
processing stops the loop (there is no handler around it), keeping
the signals and calls already produced and recording the exception. -/
def runCredentials (db : DB) (remote : Remote) :
    List TrelloCredentialsRec → DB × List Signal × List RemoteCall × Option String
  | [] => (db, [], [], none)
  | c :: rest =>
    match checkCredential db remote c with
    | .error e => (db, [], [], some e)
    | .ok (db1, s, k) =>
      let r := runCredentials db1 remote rest
      (r.1, s ++ r.2.1, k ++ r.2.2.1, r.2.2.2)

/-- The outcome of one pass: the stored state after the pass, the
printed signals in order, the outbound calls in order, and the
exception escaping the pass, if any. -/
structure PassResult where
  db : DB
  signals : List Signal
  calls : List RemoteCall
  exc : Option String
  deriving Repr, DecidableEq

/-- One pass of the worker: `check_trello_tasks` (`worker.py`
lines 24-68).  The header line (with the pass timestamp) is printed
first; with zero stored credentials the worker prints the
nothing-to-check line and returns; otherwise it runs the credential
loop. -/
def check_trello_tasks (db : DB) (remote : Remote) (timestamp : String) :
    PassResult :=
  if db.trello_credentials.isEmpty then
    { db := db
      signals := [.header timestamp, .nothingToCheck]
      calls := []
      exc := none }
  else
    let r := runCredentials db remote db.trello_credentials
    { db := r.1
      signals := Signal.header timestamp :: r.2.1
      calls := r.2.2.1
      exc := r.2.2.2 }

/-! ## Shared lemmas -/

/-- Processing one credential never changes the stored state: every
return point of `checkCredential` hands back the database it was
given (the worker performs no store write). -/
theorem checkCredential_db_eq (db : DB) (remote : Remote) (creds : TrelloCredentialsRec)
    (db1 : DB) (s : List Signal) (k : List RemoteCall)
    (h : checkCredential db remote creds = .ok (db1, s, k)) : db1 = db := by
  unfold checkCredential at h
  split at h
  · simp only [Except.ok.injEq, Prod.mk.injEq] at h
    exact h.1.symm
  · split at h
    · exact absurd h (by simp)
    · simp only [] at h
      split at h
      · simp only [Except.ok.injEq, Prod.mk.injEq] at h
        exact h.1.symm
      · simp only [Except.ok.injEq, Prod.mk.injEq] at h
        exact h.1.symm

/-- The credential loop never changes the stored state. -/
theorem runCredentials_db_eq (remote : Remote) :
    ∀ (cs : List TrelloCredentialsRec) (db : DB),
      (runCredentials db remote cs).1 = db := by
  intro cs
  induction cs with
  | nil => intro db; rfl
  | cons c rest ih =>
    intro db
    unfold runCredentials
    cases hc : checkCredential db remote c with
    | error e => rfl
    | ok v =>
      obtain ⟨db1, s, k⟩ := v
      have hdb : db1 = db := checkCredential_db_eq db remote c db1 s k hc
      simp only [hdb, ih db]

/-- A pass never changes the stored state. -/
theorem check_db_eq (db : DB) (remote : Remote) (t : String) :
    (check_trello_tasks db remote t).db = db := by
  unfold check_trello_tasks
  split
  · rfl
  · exact runCredentials_db_eq remote db.trello_credentials db

/-! ## Claims -/

/-- C5: a pass never mutates any stored credential record, user
record or tracked work item record: the stored state after the pass
(`PassResult.db`, the database threaded through every step of
`check_trello_tasks`) is identical, field for field, to the stored
state before it — in particular the recorded container identifier
(`list_id`) of every tracked item, including items reported as
moved, is unchanged. -/
theorem c5_pass_never_mutates_store (db : DB) (remote : Remote) (t : String) :
    (check_trello_tasks db remote t).db = db :=
  check_db_eq db remote t

/-- C7: with zero stored credential records a pass completes without
error (`exc = none`), emits exactly the header and one
nothing-to-check signal, and performs no remote call and no item
processing (`calls = []`), whatever users, cards, remote state and
timestamp are present. -/
theorem c7_zero_credentials (users : List UserRec) (cards : List TrelloCardRec)
    (remote : Remote) (t : String) :
    check_trello_tasks ⟨[], users, cards⟩ remote t =
      { db := ⟨[], users, cards⟩
        signals := [.header t, .nothingToCheck]
        calls := []
        exc := none } := rfl

/-- C6: for a fixed stored state and fixed remote state, two
consecutive passes (the second pass running on the stored state the
first pass hands back) with no intervening change produce the same
signal sequence, up to the pass timestamp: both signal lists start
with their own header and agree from the second signal on. -/
theorem c6_consecutive_passes_idempotent (db : DB) (remote : Remote) (t1 t2 : String) :
    (check_trello_tasks db remote t1).signals.drop 1
      = (check_trello_tasks ((check_trello_tasks db remote t1).db) remote t2).signals.drop 1
    ∧ (check_trello_tasks db remote t1).signals.take 1 = [Signal.header t1]
    ∧ (check_trello_tasks ((check_trello_tasks db remote t1).db) remote t2).signals.take 1
      = [Signal.header t2] := by
  rw [check_db_eq db remote t1]
  unfold check_trello_tasks
  split
  · exact ⟨rfl, rfl, rfl⟩
  · exact ⟨rfl, rfl, rfl⟩

/-- C1: a pass over exactly one credential with exactly two tracked
items, where item `a`'s current remote list equals its recorded list
and item `b`'s differs (and the user resolves, the client constructs,
and all remote calls succeed), emits after the header exactly two
status signals: one unchanged ("STATUS OK") signal for `a` and one
moved ("STATUS UPDATE") signal for `b`, in item order. -/
theorem c1_two_item_scenario (cred : TrelloCredentialsRec) (u : UserRec)
    (a b : TrelloCardRec) (ca cb : RemoteCard) (ln t : String) (remote : Remote)
    (hu : u.id = cred.user_id)
    (hau : a.user_id = cred.user_id) (hbu : b.user_id = cred.user_id)
    (hctor : remote.clientCtor cred.token = .ok ())
    (hga : remote.getCard cred.token a.card_id = .ok ca)
    (hca : ca.list_id = a.list_id)
    (hgb : remote.getCard cred.token b.card_id = .ok cb)
    (hcb : cb.list_id ≠ b.list_id)
    (hln : remote.getListName cred.token cb.list_id = .ok ln) :
    (check_trello_tasks ⟨[cred], [u], [a, b]⟩ remote t).signals
      = [.header t, .statusOk ca.name, .statusMoved cb.name ln] := by
  simp [check_trello_tasks, runCredentials, checkCredential, checkCard,
    hu, hau, hbu, hctor, hga, hca, hgb, hcb, hln]

/-- A concrete credential for witness scenarios. -/
def credW : TrelloCredentialsRec := ⟨"user1", "tok1"⟩

/-- The concrete owning user of `credW`. -/
def userW : UserRec := ⟨"user1"⟩

/-- A tracked card whose remote list will match its recorded list. -/
def cardA : TrelloCardRec := ⟨"cardA", "user1", "board1", "listA", "task a"⟩

/-- A tracked card whose remote list will differ from its recorded
list. -/
def cardB : TrelloCardRec := ⟨"cardB", "user1", "board1", "listB", "task b"⟩

/-- A concrete remote state: client construction succeeds, `cardA` is
still in `listA`, `cardB` has moved to `listNew`, and list-name
resolution yields "New List". -/
def remoteW : Remote where
  clientCtor := fun _ => .ok ()
  getCard := fun _ cid =>
    if cid == "cardA" then .ok ⟨"listA", "Task A"⟩ else .ok ⟨"listNew", "Task B"⟩
  getListName := fun _ _ => .ok "New List"

/-- Witness for C1 at the concrete two-card scenario. -/
theorem c1_two_item_scenario_witness :
    (check_trello_tasks ⟨[credW], [userW], [cardA, cardB]⟩ remoteW "T").signals
      = [.header "T", .statusOk "Task A", .statusMoved "Task B" "New List"] :=
  c1_two_item_scenario credW userW cardA cardB ⟨"listA", "Task A"⟩ ⟨"listNew", "Task B"⟩
    "New List" "T" remoteW rfl rfl rfl rfl rfl rfl rfl (by decide) rfl

/-- Test `startsWithChars pat s`: `pat` is an initial segment of `s`
(character lists). -/
def startsWithChars : List Char → List Char → Bool
  | [], _ => true
  | _ :: _, [] => false
  | a :: as, b :: bs => a == b && startsWithChars as bs

/-- Test `containsChars pat s`: `pat` occurs contiguously somewhere in `s`
(character lists). -/
def containsChars (pat : List Char) : List Char → Bool
  | [] => startsWithChars pat []
  | c :: rest => startsWithChars pat (c :: rest) || containsChars pat rest

/-- Predicate `mentions s sub`: the text `s` names `sub`, i.e. `sub` occurs
as a contiguous substring of `s`. -/
def mentions (s sub : String) : Bool := containsChars sub.data s.data

/-- The stored state for the C2 counterexample: one credential, its
user, and one tracked card recorded in container `origlist99`. -/
def dbC2 : DB :=
  ⟨[⟨"user1", "tok1"⟩], [⟨"user1"⟩], [⟨"card1", "user1", "board1", "origlist99", "task"⟩]⟩

/-- The remote state for the C2 counterexample: the card has moved to
list `newlist42`, whose display name resolves to "Done". -/
def remoteC2 : Remote where
  clientCtor := fun _ => .ok ()
  getCard := fun _ _ => .ok ⟨"newlist42", "Task X"⟩
  getListName := fun _ _ => .ok "Done"

/-- C2 counterexample: a pass over a card that moved out of its
recorded container `origlist99` emits exactly one moved signal, but
the printed text of that signal does not name the old container in
any form — neither the recorded container identifier `origlist99` nor
the old container's name (which the worker never even fetches) occurs
in it; only the item name and the new container's name `Done` do.
This refutes "that signal names both the old and the new
container". -/
theorem c2_counterexample :
    (check_trello_tasks dbC2 remoteC2 "T").signals
      = [.header "T", .statusMoved "Task X" "Done"]
    ∧ mentions (renderSignal (.statusMoved "Task X" "Done")) "origlist99" = false
    ∧ mentions (renderSignal (.statusMoved "Task X" "Done")) "Done" = true := by
  refine ⟨by decide, by decide, by decide⟩

/-- C2 as amended: for every tracked item whose fetch succeeds, whose
current remote list differs from the recorded one, and whose new
list-name resolution succeeds, processing that item emits exactly one
signal — a moved signal — and that signal's printed text names the
item and its new container (the old container does not appear in the
moved line's format). -/
theorem c2_moved_signal_names_new_container (remote : Remote) (token : String)
    (rec : TrelloCardRec) (card : RemoteCard) (ln : String)
    (hg : remote.getCard token rec.card_id = .ok card)
    (hd : card.list_id ≠ rec.list_id)
    (hl : remote.getListName token card.list_id = .ok ln) :
    (checkCard remote token rec).1 = [.statusMoved card.name ln]
    ∧ renderSignal (.statusMoved card.name ln)
        = "  -> STATUS UPDATE: Task '" ++ card.name
            ++ "' has been moved to a new list '" ++ ln ++ "'." := by
  refine ⟨?_, rfl⟩
  simp [checkCard, hg, hl, hd]

/-- Witness for the amended C2 at a concrete moved card. -/
theorem c2_moved_signal_names_new_container_witness :
    (checkCard remoteC2 "tok1" ⟨"card1", "user1", "board1", "origlist99", "task"⟩).1
      = [.statusMoved "Task X" "Done"]
    ∧ renderSignal (.statusMoved "Task X" "Done")
        = "  -> STATUS UPDATE: Task '" ++ "Task X"
            ++ "' has been moved to a new list '" ++ "Done" ++ "'." :=
  c2_moved_signal_names_new_container remoteC2 "tok1"
    ⟨"card1", "user1", "board1", "origlist99", "task"⟩ ⟨"newlist42", "Task X"⟩ "Done"
    rfl (by decide) rfl

/-- C3: when a tracked item's remote fetch fails with message `e`,
the per-item handler contains the failure: (1) processing that item
emits exactly one signal, the error/possibly-deleted signal naming
the item's id; (2) the credential's processing still completes
normally (`Except.ok`), with the items before and after the failing
one processed exactly as usual around the single error signal; (3) at
pass level the subsequent credentials are still processed, their
signals following this credential's; (4) the failing item never makes
an exception escape the pass — the pass's escape status is whatever
the remaining credentials alone produce. -/
theorem c3_fetch_failure_contained (db : DB) (remote : Remote)
    (cred : TrelloCredentialsRec) (rest : List TrelloCredentialsRec)
    (u : UserRec) (pre post : List TrelloCardRec) (bad : TrelloCardRec) (e : String)
    (hu : db.users.find? (fun v => v.id == cred.user_id) = some u)
    (hctor : remote.clientCtor cred.token = .ok ())
    (hfilter : db.trello_cards.filter (fun c => c.user_id == cred.user_id)
        = pre ++ bad :: post)
    (hbad : remote.getCard cred.token bad.card_id = .error e) :
    (checkCard remote cred.token bad).1 = [.fetchError bad.card_id e]
    ∧ checkCredential db remote cred = .ok (db,
        (pre.map fun r => (checkCard remote cred.token r).1).flatten
          ++ Signal.fetchError bad.card_id e
            :: (post.map fun r => (checkCard remote cred.token r).1).flatten,
        (pre.map fun r => (checkCard remote cred.token r).2).flatten
          ++ (checkCard remote cred.token bad).2
          ++ (post.map fun r => (checkCard remote cred.token r).2).flatten)
    ∧ (runCredentials db remote (cred :: rest)).2.1
        = ((pre.map fun r => (checkCard remote cred.token r).1).flatten
            ++ Signal.fetchError bad.card_id e
              :: (post.map fun r => (checkCard remote cred.token r).1).flatten)
          ++ (runCredentials db remote rest).2.1
    ∧ (runCredentials db remote (cred :: rest)).2.2.2
        = (runCredentials db remote rest).2.2.2 := by
  have hitem : (checkCard remote cred.token bad).1 = [.fetchError bad.card_id e] := by
    simp [checkCard, hbad]
  have hcred : checkCredential db remote cred = .ok (db,
      (pre.map fun r => (checkCard remote cred.token r).1).flatten
        ++ Signal.fetchError bad.card_id e
          :: (post.map fun r => (checkCard remote cred.token r).1).flatten,
      (pre.map fun r => (checkCard remote cred.token r).2).flatten
        ++ (checkCard remote cred.token bad).2
        ++ (post.map fun r => (checkCard remote cred.token r).2).flatten) := by
    unfold checkCredential
    rw [hu, hctor]
    simp only [hfilter, List.isEmpty_eq_true, List.append_eq_nil, List.cons_ne_nil,
      and_false, if_false, List.map_append, List.map_cons, List.flatten_append,
      List.flatten_cons, hitem]
    simp [List.append_assoc]
  refine ⟨hitem, hcred, ?_, ?_⟩ <;>
    simp [runCredentials, hcred]

/-- A tracked card whose remote fetch will fail. -/
def badCard : TrelloCardRec := ⟨"cardBad", "user1", "board1", "listZ", "task bad"⟩

/-- The stored state for the C3 witness: one credential, its user,
one healthy card followed by one card whose fetch fails. -/
def dbC3 : DB := ⟨[credW], [userW], [cardA, badCard]⟩

/-- The remote state for the C3 witness: `cardA` fetches fine and is
unmoved; any other card's fetch raises "404 not found". -/
def remoteC3 : Remote where
  clientCtor := fun _ => .ok ()
  getCard := fun _ cid =>
    if cid == "cardA" then .ok ⟨"listA", "Task A"⟩ else .error "404 not found"
  getListName := fun _ _ => .ok "New List"

/-- Witness for C3 at the concrete failing-card scenario. -/
theorem c3_fetch_failure_contained_witness :
    (checkCard remoteC3 "tok1" badCard).1 = [.fetchError "cardBad" "404 not found"]
    ∧ checkCredential dbC3 remoteC3 credW = .ok (dbC3,
        ([cardA].map fun r => (checkCard remoteC3 "tok1" r).1).flatten
          ++ Signal.fetchError "cardBad" "404 not found"
            :: (([] : List TrelloCardRec).map fun r => (checkCard remoteC3 "tok1" r).1).flatten,
        ([cardA].map fun r => (checkCard remoteC3 "tok1" r).2).flatten
          ++ (checkCard remoteC3 "tok1" badCard).2
          ++ (([] : List TrelloCardRec).map fun r => (checkCard remoteC3 "tok1" r).2).flatten)
    ∧ (runCredentials dbC3 remoteC3 (credW :: [])).2.1
        = (([cardA].map fun r => (checkCard remoteC3 "tok1" r).1).flatten
            ++ Signal.fetchError "cardBad" "404 not found"
              :: (([] : List TrelloCardRec).map fun r => (checkCard remoteC3 "tok1" r).1).flatten)
          ++ (runCredentials dbC3 remoteC3 []).2.1
    ∧ (runCredentials dbC3 remoteC3 (credW :: [])).2.2.2
        = (runCredentials dbC3 remoteC3 []).2.2.2 :=
  c3_fetch_failure_contained dbC3 remoteC3 credW [] userW [cardA] [] badCard
    "404 not found" rfl rfl (by decide) rfl

/-- A credential whose stored token makes client construction fail. -/
def credBad : TrelloCredentialsRec := ⟨"user1", "tokBad"⟩

/-- A later, healthy credential of a second user. -/
def credGood : TrelloCredentialsRec := ⟨"user2", "tok2"⟩

/-- The second user. -/
def userW2 : UserRec := ⟨"user2"⟩

/-- A tracked, unmoved card of the second user. -/
def card2 : TrelloCardRec := ⟨"card2", "user2", "board2", "list2", "task 2"⟩

/-- The stored state for C4: the failing credential first, a healthy
credential with one tracked card after it. -/
def dbC4 : DB := ⟨[credBad, credGood], [userW, userW2], [card2]⟩

/-- The remote state for C4: `TrelloClient` construction raises
"invalid token" for `tokBad` and succeeds otherwise; the second
user's card fetches fine and is unmoved. -/
def remoteC4 : Remote where
  clientCtor := fun tok => if tok == "tokBad" then .error "invalid token" else .ok ()
  getCard := fun _ _ => .ok ⟨"list2", "Task 2"⟩
  getListName := fun _ _ => .ok "L"

/-- C4 (code bug): `worker.py` line 30 opens a `try:` with no
`except`/`finally` clause — a Python `SyntaxError`, so the file
cannot even be imported; and modelling the body with the orphaned
`try:` absent, a client-construction failure on the first credential
is not caught per-credential: the exception escapes the pass
(`exc = some "invalid token"`), the pass emits nothing beyond the
header, and the healthy second credential — which on its own would
have produced an unchanged-status signal — is never processed.  This
contradicts the claim that such a failure is caught at the scope of
the single credential and the pass advances to the next one. -/
theorem c4_ctor_failure_aborts_pass :
    (check_trello_tasks dbC4 remoteC4 "T").signals = [.header "T"]
    ∧ (check_trello_tasks dbC4 remoteC4 "T").exc = some "invalid token"
    ∧ checkCredential dbC4 remoteC4 credGood
        = .ok (dbC4, [.statusOk "Task 2"], [.getCard "tok2" "card2"]) :=
  ⟨rfl, rfl, rfl⟩

/-- C8: a credential whose owning user id resolves to no stored user
is skipped silently: its processing yields no signal, no remote call
and no exception (`Except.ok` with empty output), and the credential
loop over it behaves exactly as the loop over the remaining
credentials alone. -/
theorem c8_orphaned_credential_skipped (db : DB) (remote : Remote)
    (cred : TrelloCredentialsRec) (rest : List TrelloCredentialsRec)
    (h : db.users.find? (fun u => u.id == cred.user_id) = none) :
    checkCredential db remote cred = .ok (db, [], [])
    ∧ runCredentials db remote (cred :: rest) = runCredentials db remote rest := by
  have h1 : checkCredential db remote cred = .ok (db, [], []) := by
    unfold checkCredential
    rw [h]
  refine ⟨h1, ?_⟩
  conv_lhs => rw [runCredentials, h1]
  rfl

/-- A credential whose owning user id matches no stored user. -/
def credOrphan : TrelloCredentialsRec := ⟨"ghost", "tokG"⟩

/-- The stored state for the C8 witness: one orphaned credential and
an unrelated user. -/
def dbC8 : DB := ⟨[credOrphan], [userW], []⟩

/-- Witness for C8 at the concrete orphaned credential. -/
theorem c8_orphaned_credential_skipped_witness :
    checkCredential dbC8 remoteW credOrphan = .ok (dbC8, [], [])
    ∧ runCredentials dbC8 remoteW (credOrphan :: []) = runCredentials dbC8 remoteW [] :=
  c8_orphaned_credential_skipped dbC8 remoteW credOrphan [] rfl

/-- Processing one item always attempts exactly one `get_card` call,
carrying that item's stored external id. -/
theorem checkCard_calls_one_get (remote : Remote) (token : String) (rec : TrelloCardRec) :
    ((checkCard remote token rec).2).filter RemoteCall.isGetCard
      = [RemoteCall.getCard token rec.card_id] := by
  unfold checkCard
  split
  · simp [RemoteCall.isGetCard]
  · split
    · split <;> simp [RemoteCall.isGetCard]
    · simp [RemoteCall.isGetCard]

/-- Every call an item's processing makes is a read. -/
theorem checkCard_calls_read (remote : Remote) (token : String) (rec : TrelloCardRec) :
    ((checkCard remote token rec).2).all RemoteCall.isRead = true := by
  unfold checkCard
  split
  · simp [RemoteCall.isRead]
  · split
    · split <;> simp [RemoteCall.isRead]
    · simp [RemoteCall.isRead]

/-- Over a list of items, the `get_card` calls made are exactly one
per item, in item order. -/
theorem itemCalls_get_per_item (remote : Remote) (token : String) :
    ∀ cards : List TrelloCardRec,
      ((cards.map fun r => (checkCard remote token r).2).flatten).filter RemoteCall.isGetCard
        = cards.map fun r => RemoteCall.getCard token r.card_id := by
  intro cards
  induction cards with
  | nil => rfl
  | cons c cs ih =>
    simp only [List.map_cons, List.flatten_cons, List.filter_append, ih,
      checkCard_calls_one_get, List.singleton_append]

/-- Over a list of items, every call made is a read. -/
theorem itemCalls_all_read (remote : Remote) (token : String) :
    ∀ cards : List TrelloCardRec,
      ((cards.map fun r => (checkCard remote token r).2).flatten).all RemoteCall.isRead
        = true := by
  intro cards
  induction cards with
  | nil => rfl
  | cons c cs ih =>
    simp only [List.map_cons, List.flatten_cons, List.all_append, ih,
      checkCard_calls_read, Bool.and_self]

/-- C9: when a credential's processing completes (owning user found,
client constructed), the outbound calls it makes are read-only, and
its `get_card` ("get item by id") calls are exactly one per tracked
work item owned by the credential's user, in item order, each naming
that item's stored external id. -/
theorem c9_one_get_card_call_per_item (db : DB) (remote : Remote)
    (cred : TrelloCredentialsRec) (db1 : DB) (s : List Signal) (k : List RemoteCall)
    (hok : checkCredential db remote cred = .ok (db1, s, k))
    (hfound : ¬ db.users.find? (fun v => v.id == cred.user_id) = none) :
    k.filter RemoteCall.isGetCard
      = (db.trello_cards.filter (fun c => c.user_id == cred.user_id)).map
          (fun r => RemoteCall.getCard cred.token r.card_id)
    ∧ k.all RemoteCall.isRead = true := by
  unfold checkCredential at hok
  split at hok
  · exact absurd (by assumption) hfound
  · split at hok
    · exact absurd hok (by simp)
    · simp only [] at hok
      split at hok
      · simp only [Except.ok.injEq, Prod.mk.injEq] at hok
        obtain ⟨-, -, hk⟩ := hok
        have hnil : db.trello_cards.filter (fun c => c.user_id == cred.user_id) = [] :=
          List.isEmpty_iff.mp (by assumption)
        subst hk
        simp [hnil]
      · simp only [Except.ok.injEq, Prod.mk.injEq] at hok
        obtain ⟨-, -, hk⟩ := hok
        subst hk
        exact ⟨itemCalls_get_per_item remote cred.token _, itemCalls_all_read remote cred.token _⟩

/-- Witness for C9 at the concrete two-card credential (one healthy
card, one failing card). -/
theorem c9_one_get_card_call_per_item_witness :
    ([RemoteCall.getCard "tok1" "cardA",
      RemoteCall.getCard "tok1" "cardBad"]).filter RemoteCall.isGetCard
      = (dbC3.trello_cards.filter (fun c => c.user_id == credW.user_id)).map
          (fun r => RemoteCall.getCard credW.token r.card_id)
    ∧ ([RemoteCall.getCard "tok1" "cardA",
        RemoteCall.getCard "tok1" "cardBad"]).all RemoteCall.isRead = true :=
  c9_one_get_card_call_per_item dbC3 remoteC3 credW dbC3
    [Signal.statusOk "Task A", Signal.fetchError "cardBad" "404 not found"]
    [RemoteCall.getCard "tok1" "cardA", RemoteCall.getCard "tok1" "cardBad"]
    rfl (by decide)

/-- C10: for an item whose fetch succeeds and whose current list
differs from the recorded one, the moved signal is only produced
after a second remote call resolving the new list's name, attempted
inside the same per-item handler as the fetch: when that call
succeeds the item's processing is the moved signal with both calls
recorded; when it fails the item's processing is the
error/possibly-deleted signal instead of a moved signal, still with
both calls recorded, and the processing of any following items is
unaffected. -/
theorem c10_moved_needs_second_call (remote : Remote) (token : String)
    (rec : TrelloCardRec) (card : RemoteCard)
    (hg : remote.getCard token rec.card_id = .ok card)
    (hd : card.list_id ≠ rec.list_id) :
    (∀ ln, remote.getListName token card.list_id = .ok ln →
      checkCard remote token rec
        = ([.statusMoved card.name ln],
           [.getCard token rec.card_id, .getList token card.list_id]))
    ∧ (∀ e, remote.getListName token card.list_id = .error e →
      checkCard remote token rec
        = ([.fetchError rec.card_id e],
           [.getCard token rec.card_id, .getList token card.list_id]))
    ∧ (∀ rs : List TrelloCardRec,
      ((rec :: rs).map fun r => (checkCard remote token r).1).flatten
        = (checkCard remote token rec).1
          ++ (rs.map fun r => (checkCard remote token r).1).flatten) := by
  refine ⟨?_, ?_, ?_⟩
  · intro ln hl
    simp [checkCard, hg, hl, hd]
  · intro e hl
    simp [checkCard, hg, hl, hd]
  · intro rs
    simp

/-- The remote state for the C10 witness: the card has moved, and
resolving the new list's name raises "list gone". -/
def remoteC10 : Remote where
  clientCtor := fun _ => .ok ()
  getCard := fun _ _ => .ok ⟨"newlist42", "Task X"⟩
  getListName := fun _ _ => .error "list gone"

/-- Witness for C10 at a concrete moved card, exercising the branch
where the new-list-name resolution fails. -/
theorem c10_moved_needs_second_call_witness :
    (∀ ln, remoteC10.getListName "tok1" "newlist42" = .ok ln →
      checkCard remoteC10 "tok1" ⟨"card1", "user1", "board1", "origlist99", "task"⟩
        = ([.statusMoved "Task X" ln],
           [.getCard "tok1" "card1", .getList "tok1" "newlist42"]))
    ∧ (∀ e, remoteC10.getListName "tok1" "newlist42" = .error e →
      checkCard remoteC10 "tok1" ⟨"card1", "user1", "board1", "origlist99", "task"⟩
        = ([.fetchError "card1" e],
           [.getCard "tok1" "card1", .getList "tok1" "newlist42"]))
    ∧ (∀ rs : List TrelloCardRec,
      ((⟨"card1", "user1", "board1", "origlist99", "task"⟩ :: rs).map
          fun r => (checkCard remoteC10 "tok1" r).1).flatten
        = (checkCard remoteC10 "tok1" ⟨"card1", "user1", "board1", "origlist99", "task"⟩).1
          ++ (rs.map fun r => (checkCard remoteC10 "tok1" r).1).flatten) :=
  c10_moved_needs_second_call remoteC10 "tok1"
    ⟨"card1", "user1", "board1", "origlist99", "task"⟩ ⟨"newlist42", "Task X"⟩
    rfl (by decide)
